import Mathlib

/-!
Shallow embedding of the OpenHeart state distribution and validation layer.

Source files embedded:
- src/plugin/state-reader.ts : record validation (staleness + producer
  liveness), transport fallback chain, default record.
- src/plugin/api.ts : mobile biometric ingestion (HRV / heart-rate
  normalization), flow-state threshold mapping, status-endpoint fallback.
- src/plugin/index.ts : precept engine wired into the message pre-process
  hook.
- src/cli (simulate command) : simulation presets and overrides.

Numbers that are JavaScript floats are modelled as rationals; all constants
involved are exactly representable two-decimal values. Timestamps and
process ids are integers. OS process liveness (process.kill(pid, 0)) is an
environment oracle passed as a function argument. Fallible operations
(socket read, file read, HTTP validation, CLI exits) are modelled with
Option.
-/

/-- BiometricState from src/plugin/state-reader.ts: the canonical state
record, with the fields in the order of the TypeScript interface. -/
structure BiometricState where
  stress_index : ℚ
  flow_state : String
  timestamp : Int
  ttl_seconds : Int
  daemon_pid : Int
  confidence : ℚ
  source : String
deriving DecidableEq, Repr

/-- MAX_STALENESS_MS from src/plugin/state-reader.ts (60 seconds). -/
def MAX_STALENESS_MS : Int := 60000

/-- getDefaultState from src/plugin/state-reader.ts: the graceful
degradation record. Its timestamp is Date.now(), passed here as `now`. -/
def getDefaultState (now : Int) : BiometricState :=
  ⟨0, "UNKNOWN", now, 0, -1, 0, "default"⟩

/-- isDaemonAlive from src/plugin/state-reader.ts. For pid <= 0 it returns
false without probing; otherwise it probes the OS with process.kill(pid, 0),
modelled by the oracle `osAlive`. -/
def isDaemonAlive (osAlive : Int → Bool) (pid : Int) : Bool :=
  if pid ≤ 0 then false else osAlive pid

/-- validateState from src/plugin/state-reader.ts: substitute the default
record when the record is stale (age over MAX_STALENESS_MS) or the producer
process is dead; otherwise return the record unchanged. `now` is
Date.now(). -/
def validateState (osAlive : Int → Bool) (now : Int) (state : BiometricState) :
    BiometricState :=
  if now - state.timestamp > MAX_STALENESS_MS then getDefaultState now
  else if !(isDaemonAlive osAlive state.daemon_pid) then getDefaultState now
  else state

/-- readBiometricState from src/plugin/state-reader.ts. The socket read and
the file read each either yield a parsed record or fail (socket file absent,
connection error, timeout, or unparsable JSON; file absent or unparsable);
a failed attempt is `none`. Socket is tried first, then the file, then the
default record. A successful read is passed through validateState. -/
def readBiometricState (osAlive : Int → Bool) (now : Int)
    (socketRead fileRead : Option BiometricState) : BiometricState :=
  match socketRead with
  | some state => validateState osAlive now state
  | none =>
    match fileRead with
    | some state => validateState osAlive now state
    | none => getDefaultState now

/-- hrvToStress from src/plugin/api.ts: RMSSD milliseconds to stress index,
a non-increasing step function. -/
def hrvToStress (hrv : ℚ) : ℚ :=
  if hrv ≥ 100 then 0.1
  else if hrv ≥ 80 then 0.2
  else if hrv ≥ 60 then 0.4
  else if hrv ≥ 40 then 0.6
  else if hrv ≥ 25 then 0.8
  else 0.95

/-- heartRateToStress from src/plugin/api.ts: BPM to stress index, a
non-decreasing step function over resting-context bands. -/
def heartRateToStress (hr : ℚ) : ℚ :=
  if hr < 60 then 0.2
  else if hr < 70 then 0.3
  else if hr < 80 then 0.5
  else if hr < 90 then 0.6
  else if hr < 100 then 0.75
  else 0.9

/-- stressToFlowState from src/plugin/api.ts: the threshold mapping from
stress index to flow-state label. -/
def stressToFlowState (stress : ℚ) : String :=
  if stress < 0.25 then "DEEP_FLOW"
  else if stress < 0.4 then "CALM"
  else if stress < 0.65 then "NORMAL"
  else "STRESSED"

/-- Math.round(x * 100) / 100 from src/plugin/api.ts (two-decimal rounding;
Mathlib round is halves-up, matching JavaScript Math.round). -/
def round2 (x : ℚ) : ℚ := (round (x * 100) : ℚ) / 100

/-- MobileBiometricData from src/plugin/api.ts: the JSON body of
POST /openheart/biometrics, every field optional. -/
structure MobileBiometricData where
  heart_rate : Option ℚ
  hrv : Option ℚ
  source : Option String
  timestamp : Option Int
deriving DecidableEq, Repr

/-- JavaScript truthiness of an optional number: undefined and 0 are falsy
(NaN, also falsy, is outside the rational model). -/
def truthyNum (x : Option ℚ) : Bool :=
  match x with
  | some v => v != 0
  | none => false

/-- Stress-index computation of handleBiometricsPost in src/plugin/api.ts
(the local stress_index variable): the branches test hrv and heart_rate
against undefined, starting from the 0.5 initializer, so a present hrv
takes precedence whatever its value. -/
def mobileStressIndex (data : MobileBiometricData) : ℚ :=
  match data.hrv with
  | some v => hrvToStress v
  | none =>
    match data.heart_rate with
    | some v => heartRateToStress v
    | none => 0.5

/-- handleBiometricsPost from src/plugin/api.ts, the pure core: `none` is
the 400 rejection (body with neither a truthy hrv nor a truthy heart_rate);
otherwise the state record built and written (stress index rounded to two
decimals, flow state derived from the unrounded stress index). `now` is
Date.now(). The guard uses JavaScript truthiness; confidence
(`data.hrv ? 0.9 : 0.6`), timestamp (`data.timestamp || Date.now()`) and
source (`data.source || "mobile_healthkit"`) also use truthiness. -/
def handleBiometricsPost (data : MobileBiometricData) (now : Int) :
    Option BiometricState :=
  if !(truthyNum data.hrv) && !(truthyNum data.heart_rate) then none
  else
    some ⟨round2 (mobileStressIndex data),
      stressToFlowState (mobileStressIndex data),
      (match data.timestamp with
       | some t => if t != 0 then t else now
       | none => now),
      300, -1,
      (if truthyNum data.hrv then 0.9 else 0.6),
      (match data.source with
       | some s => if s != "" then s else "mobile_healthkit"
       | none => "mobile_healthkit")⟩

/-- Fallback object of readCurrentState in src/plugin/api.ts. It carries
exactly the five fields the source literal sets - no ttl_seconds and no
confidence field exist on it. -/
structure ApiFallbackState where
  stress_index : ℚ
  flow_state : String
  timestamp : Int
  daemon_pid : Int
  source : String
deriving DecidableEq, Repr

/-- The concrete fallback value returned by readCurrentState when the state
file does not exist. -/
def apiFallbackState : ApiFallbackState :=
  ⟨0, "UNKNOWN", 0, -1, "none"⟩

/-- readCurrentState from src/plugin/api.ts: return the parsed state file
when it exists, else the literal fallback object (a parse failure raises and
is caught by the status handler; that path is not a fallback value and is
outside this pure model). -/
def readCurrentState (fileRead : Option BiometricState) :
    BiometricState ⊕ ApiFallbackState :=
  match fileRead with
  | some s => Sum.inl s
  | none => Sum.inr apiFallbackState

/-- Message event context from src/plugin/index.ts (the subset the hook
touches). `systemPrecepts` is `none` when the host did not supply an array
(the hook then initializes it to empty). -/
structure MsgContext where
  biometrics : Option BiometricState
  systemPrecepts : Option (List String)
  biometricNote : Option String
deriving DecidableEq, Repr

/-- Advisory note written by Rule 1 (high stress) of the message hook in
src/plugin/index.ts. The interpolated stress number is rendered by toString
in place of JavaScript number formatting. -/
def conciseNote (stress : ℚ) : String :=
  "[SYSTEM: User Biophysical Context]\n" ++
  "Stress Level: HIGH (" ++ toString stress ++ ")\n" ++
  "Recommendation: Keep responses concise and direct. " ++
  "Avoid follow-up questions unless essential."

/-- Advisory note appended by Rule 2 (deep flow) of the message hook in
src/plugin/index.ts. -/
def deepFlowNote : String :=
  "\n[SYSTEM: User is in DEEP FLOW state]\n" ++
  "Recommendation: Avoid interrupting with clarifying questions. " ++
  "Provide complete answers without requiring user input."

/-- The message:pre_process hook body from src/plugin/index.ts, after the
state has been read: injects the state, initializes systemPrecepts to empty
only when it is not already an array, then pushes CONCISE_MODE when
stress_index > 0.7 and confidence > 0.5 (overwriting biometricNote) and
NO_INTERRUPT when flow_state is DEEP_FLOW and confidence > 0.5 (appending
to biometricNote, treating a missing note as the empty string). -/
def preProcess (state : BiometricState) (ctx : MsgContext) : MsgContext :=
  let precepts0 : List String :=
    match ctx.systemPrecepts with
    | some l => l
    | none => []
  let precepts1 :=
    if state.stress_index > 0.7 ∧ state.confidence > 0.5
    then precepts0 ++ ["CONCISE_MODE"] else precepts0
  let note1 :=
    if state.stress_index > 0.7 ∧ state.confidence > 0.5
    then some (conciseNote state.stress_index) else ctx.biometricNote
  let precepts2 :=
    if state.flow_state = "DEEP_FLOW" ∧ state.confidence > 0.5
    then precepts1 ++ ["NO_INTERRUPT"] else precepts1
  let note2 :=
    if state.flow_state = "DEEP_FLOW" ∧ state.confidence > 0.5
    then some ((match note1 with | some n => n | none => "") ++ deepFlowNote)
    else note1
  ⟨some state, some precepts2, note2⟩

/-- Directives one evaluation of the hook appends for a given record
(Rule 1 then Rule 2), used to characterize preProcess in the theorems. -/
def firedDirectives (state : BiometricState) : List String :=
  (if state.stress_index > 0.7 ∧ state.confidence > 0.5
   then ["CONCISE_MODE"] else []) ++
  (if state.flow_state = "DEEP_FLOW" ∧ state.confidence > 0.5
   then ["NO_INTERRUPT"] else [])

/-- Valid flow-state labels accepted by the simulate command
(src cli, simulate.ts). -/
def VALID_FLOW_STATES : List String :=
  ["CALM", "NORMAL", "STRESSED", "DEEP_FLOW", "UNKNOWN"]

/-- PRESETS from the simulate command: name to (stress_index, flow_state). -/
def presetLookup (name : String) : Option (ℚ × String) :=
  if name = "high-stress" then some (0.9, "STRESSED")
  else if name = "calm" then some (0.2, "CALM")
  else if name = "deep-flow" then some (0.15, "DEEP_FLOW")
  else if name = "normal" then some (0.5, "NORMAL")
  else none

/-- simulate from the simulate command (src cli, simulate.ts): start from
stress 0.5 / NORMAL, apply the preset when given (unknown preset exits with
an error, modelled as none), then the explicit stress override (rejected
outside [0, 1]; the parseFloat NaN rejection is outside the rational
model), then the explicit flow override (uppercased; rejected when not a
valid label). On success the record written to the state file is returned:
timestamp Date.now() (`now`), ttl 300, the simulator process id as
daemon_pid, confidence 1, source "simulation". -/
def simulate (preset : Option String) (stressOpt : Option ℚ)
    (flowOpt : Option String) (now pid : Int) : Option BiometricState :=
  let base : Option (ℚ × String) :=
    match preset with
    | some name => presetLookup name
    | none => some (0.5, "NORMAL")
  match base with
  | none => none
  | some (si0, fs0) =>
    let afterStress : Option ℚ :=
      match stressOpt with
      | some s => if s < 0 ∨ s > 1 then none else some s
      | none => some si0
    match afterStress with
    | none => none
    | some si =>
      let afterFlow : Option String :=
        match flowOpt with
        | some f =>
          let fu := f.toUpper
          if fu ∈ VALID_FLOW_STATES then some fu else none
        | none => some fs0
      match afterFlow with
      | none => none
      | some fs => some ⟨si, fs, now, 300, pid, 1, "simulation"⟩

/-! Helper lemmas shared by the claim theorems. -/

lemma round2_hrvToStress (v : ℚ) : round2 (hrvToStress v) = hrvToStress v := by
  unfold hrvToStress
  split_ifs <;> norm_num [round2]

lemma round2_heartRateToStress (v : ℚ) :
    round2 (heartRateToStress v) = heartRateToStress v := by
  unfold heartRateToStress
  split_ifs <;> norm_num [round2]

lemma round2_mobileStressIndex (data : MobileBiometricData) :
    round2 (mobileStressIndex data) = mobileStressIndex data := by
  unfold mobileStressIndex
  rcases data.hrv with _ | v
  · rcases data.heart_rate with _ | w
    · norm_num [round2]
    · exact round2_heartRateToStress w
  · exact round2_hrvToStress v

lemma hrvToStress_range (v : ℚ) : 0 ≤ hrvToStress v ∧ hrvToStress v ≤ 1 := by
  unfold hrvToStress
  split_ifs <;> norm_num

lemma heartRateToStress_range (v : ℚ) :
    0 ≤ heartRateToStress v ∧ heartRateToStress v ≤ 1 := by
  unfold heartRateToStress
  split_ifs <;> norm_num

lemma mobileStressIndex_range (data : MobileBiometricData) :
    0 ≤ mobileStressIndex data ∧ mobileStressIndex data ≤ 1 := by
  unfold mobileStressIndex
  rcases data.hrv with _ | v
  · rcases data.heart_rate with _ | w
    · norm_num
    · exact heartRateToStress_range w
  · exact hrvToStress_range v

lemma handleBiometricsPost_some (data : MobileBiometricData) (now : Int)
    (st : BiometricState) (h : handleBiometricsPost data now = some st) :
    st = ⟨round2 (mobileStressIndex data), stressToFlowState (mobileStressIndex data),
      (match data.timestamp with
       | some t => if t != 0 then t else now
       | none => now),
      300, -1,
      (if truthyNum data.hrv then 0.9 else 0.6),
      (match data.source with
       | some s => if s != "" then s else "mobile_healthkit"
       | none => "mobile_healthkit")⟩ := by
  unfold handleBiometricsPost at h
  split at h
  · exact Option.noConfusion h
  · exact (Option.some.inj h).symm

lemma preProcess_precepts_eq (s : BiometricState) (ctx : MsgContext) :
    (preProcess s ctx).systemPrecepts =
      some (ctx.systemPrecepts.getD [] ++ firedDirectives s) := by
  unfold preProcess firedDirectives
  rcases ctx.systemPrecepts with _ | l <;> split_ifs <;> simp

lemma low_conf_fired_nil (s : BiometricState) (h : s.confidence ≤ 0.5) :
    firedDirectives s = [] := by
  unfold firedDirectives
  have h1 : ¬(s.stress_index > 0.7 ∧ s.confidence > 0.5) := by
    rintro ⟨_, hc⟩; linarith
  have h2 : ¬(s.flow_state = "DEEP_FLOW" ∧ s.confidence > 0.5) := by
    rintro ⟨_, hc⟩; linarith
  simp [h1, h2]

/-! Claim theorems. -/

/-- Claim C1: for every fetched state record, the Validator returns the
default record whenever the record age (now - timestamp) exceeds the
60-second staleness ceiling, regardless of producer id, and also whenever
the producer id does not correspond to a running process (in particular
whenever it is <= 0), regardless of timestamp; a record failing neither
check is returned to the caller unchanged. -/
theorem C1_validator_staleness_liveness (osAlive : Int → Bool) (now : Int)
    (s : BiometricState) :
    (now - s.timestamp > MAX_STALENESS_MS →
      validateState osAlive now s = getDefaultState now) ∧
    (isDaemonAlive osAlive s.daemon_pid = false →
      validateState osAlive now s = getDefaultState now) ∧
    (s.daemon_pid ≤ 0 →
      validateState osAlive now s = getDefaultState now) ∧
    (now - s.timestamp ≤ MAX_STALENESS_MS →
      isDaemonAlive osAlive s.daemon_pid = true →
      validateState osAlive now s = s) := by
  refine ⟨fun h => ?_, fun h => ?_, fun h => ?_, fun h1 h2 => ?_⟩
  · unfold validateState
    rw [if_pos h]
  · unfold validateState
    split_ifs <;> simp_all
  · have : isDaemonAlive osAlive s.daemon_pid = false := by
      unfold isDaemonAlive
      rw [if_pos h]
    unfold validateState
    split_ifs <;> simp_all
  · unfold validateState
    rw [if_neg (not_lt.mpr h1)]
    simp [h2]

/-- Witness for C1: a stale record (age 100000 ms), a fresh record with
producer id -1, and a fresh record with a live producer, each evaluated
concretely. -/
theorem C1_validator_staleness_liveness_witness :
    validateState (fun _ => true) 100000
        ⟨0.5, "NORMAL", 0, 30, 7, 0.8, "keystroke"⟩ = getDefaultState 100000 ∧
    validateState (fun _ => true) 0
        ⟨0.5, "NORMAL", 0, 30, -1, 0.8, "mobile_healthkit"⟩ = getDefaultState 0 ∧
    validateState (fun _ => true) 0
        ⟨0.5, "NORMAL", 0, 30, 7, 0.8, "keystroke"⟩ =
      ⟨0.5, "NORMAL", 0, 30, 7, 0.8, "keystroke"⟩ :=
  ⟨(C1_validator_staleness_liveness (fun _ => true) 100000
      ⟨0.5, "NORMAL", 0, 30, 7, 0.8, "keystroke"⟩).1 (by decide),
   (C1_validator_staleness_liveness (fun _ => true) 0
      ⟨0.5, "NORMAL", 0, 30, -1, 0.8, "mobile_healthkit"⟩).2.2.1 (by decide),
   (C1_validator_staleness_liveness (fun _ => true) 0
      ⟨0.5, "NORMAL", 0, 30, 7, 0.8, "keystroke"⟩).2.2.2 (by decide) (by decide)⟩

/-- Claim C2: the fetch operation falls back from the socket to the file,
and when neither yields a parsable record it returns the default record
(stress_index 0, flow_state UNKNOWN, confidence 0) rather than raising: the
caller always receives a well-formed record, which is either a validated
socket record, a validated file record, or the default. -/
theorem C2_fetch_fallback_total (osAlive : Int → Bool) (now : Int) :
    readBiometricState osAlive now none none = getDefaultState now ∧
    ((getDefaultState now).stress_index = 0 ∧
      (getDefaultState now).flow_state = "UNKNOWN" ∧
      (getDefaultState now).confidence = 0) ∧
    (∀ f, readBiometricState osAlive now none (some f) =
      validateState osAlive now f) ∧
    (∀ sk fl, (∃ s, sk = some s ∧
        readBiometricState osAlive now sk fl = validateState osAlive now s) ∨
      (sk = none ∧ ∃ s, fl = some s ∧
        readBiometricState osAlive now sk fl = validateState osAlive now s) ∨
      (sk = none ∧ fl = none ∧
        readBiometricState osAlive now sk fl = getDefaultState now)) := by
  refine ⟨rfl, ⟨rfl, rfl, rfl⟩, fun f => rfl, fun sk fl => ?_⟩
  rcases sk with _ | s
  · rcases fl with _ | t
    · exact Or.inr (Or.inr ⟨rfl, rfl, rfl⟩)
    · exact Or.inr (Or.inl ⟨rfl, t, rfl, rfl⟩)
  · exact Or.inl ⟨s, rfl, rfl⟩

/-- Counterexample to claim C3: a fresh record from a live producer with
stress_index 2 and confidence 3 passes the Validator unchanged, so values
outside [0, 1] are delivered raw to the consumer. -/
theorem C3_no_clamp_counterexample :
    validateState (fun _ => true) 0 ⟨2, "STRESSED", 0, 30, 1, 3, "keystroke"⟩ =
      ⟨2, "STRESSED", 0, 30, 1, 3, "keystroke"⟩ ∧
    ¬((validateState (fun _ => true) 0
        ⟨2, "STRESSED", 0, 30, 1, 3, "keystroke"⟩).stress_index ≤ 1) ∧
    ¬((validateState (fun _ => true) 0
        ⟨2, "STRESSED", 0, 30, 1, 3, "keystroke"⟩).confidence ≤ 1) := by
  have h : validateState (fun _ => true) 0
      ⟨2, "STRESSED", 0, 30, 1, 3, "keystroke"⟩ =
      ⟨2, "STRESSED", 0, 30, 1, 3, "keystroke"⟩ := by
    simp [validateState, isDaemonAlive, MAX_STALENESS_MS]
  refine ⟨h, ?_, ?_⟩ <;> rw [h] <;> norm_num

/-- Claim C3 amended: the Normalizer itself only produces stress and
confidence values inside [0, 1] (so mobile-ingested records are in range),
but the Validator performs no clamping - a fresh record from a live
producer is returned with all fields unchanged, so out-of-range values read
from the transport are propagated raw. -/
theorem C3_range_from_normalizer_only (osAlive : Int → Bool) (now : Int)
    (s : BiometricState) :
    (∀ v, 0 ≤ hrvToStress v ∧ hrvToStress v ≤ 1) ∧
    (∀ v, 0 ≤ heartRateToStress v ∧ heartRateToStress v ≤ 1) ∧
    (∀ data st, handleBiometricsPost data now = some st →
      (0 ≤ st.stress_index ∧ st.stress_index ≤ 1) ∧
      (0 ≤ st.confidence ∧ st.confidence ≤ 1)) ∧
    (now - s.timestamp ≤ MAX_STALENESS_MS →
      isDaemonAlive osAlive s.daemon_pid = true →
      validateState osAlive now s = s) := by
  refine ⟨hrvToStress_range, heartRateToStress_range, fun data st h => ?_,
    fun h1 h2 => ?_⟩
  · rw [handleBiometricsPost_some data now st h]
    refine ⟨?_, ?_⟩
    · rw [round2_mobileStressIndex]
      exact mobileStressIndex_range data
    · split_ifs <;> norm_num
  · unfold validateState
    rw [if_neg (not_lt.mpr h1)]
    simp [h2]

/-- Witness for C3 amended: the record produced for an HRV of 90 ms has
stress and confidence inside [0, 1], and a concrete fresh live record
passes the Validator unchanged. -/
theorem C3_range_from_normalizer_only_witness :
    ((0 : ℚ) ≤ (0.2 : ℚ) ∧ (0.2 : ℚ) ≤ 1) ∧ ((0 : ℚ) ≤ (0.9 : ℚ) ∧ (0.9 : ℚ) ≤ 1) ∧
    validateState (fun _ => true) 0 ⟨0.5, "NORMAL", 0, 30, 7, 0.8, "keystroke"⟩ =
      ⟨0.5, "NORMAL", 0, 30, 7, 0.8, "keystroke"⟩ := by
  have hpost : handleBiometricsPost ⟨none, some 90, none, none⟩ 0 =
      some ⟨0.2, "DEEP_FLOW", 0, 300, -1, 0.9, "mobile_healthkit"⟩ := by
    norm_num [handleBiometricsPost, truthyNum, mobileStressIndex, hrvToStress,
      stressToFlowState, round2]
  have h := (C3_range_from_normalizer_only (fun _ => true) 0
      ⟨0.5, "NORMAL", 0, 30, 7, 0.8, "keystroke"⟩).2.2.1
      ⟨none, some 90, none, none⟩
      ⟨0.2, "DEEP_FLOW", 0, 300, -1, 0.9, "mobile_healthkit"⟩ hpost
  have h2 := (C3_range_from_normalizer_only (fun _ => true) 0
      ⟨0.5, "NORMAL", 0, 30, 7, 0.8, "keystroke"⟩).2.2.2 (by decide) (by decide)
  exact ⟨h.1, h.2, h2⟩

/-- Claim C4: for every state record with confidence <= 0.5, one evaluation
of the precept hook adds no directive - the accumulated directive list is
exactly the prior one (initialized to empty when absent), whatever the
stress index and flow state. -/
theorem C4_low_confidence_no_directives (s : BiometricState) (ctx : MsgContext)
    (h : s.confidence ≤ 0.5) :
    (preProcess s ctx).systemPrecepts = some (ctx.systemPrecepts.getD []) := by
  rw [preProcess_precepts_eq, low_conf_fired_nil s h, List.append_nil]

/-- Witness for C4: a record with high stress, DEEP_FLOW flow state but
confidence 0.3 leaves a prior directive list untouched. -/
theorem C4_low_confidence_no_directives_witness :
    (preProcess ⟨0.9, "DEEP_FLOW", 0, 30, 7, 0.3, "keystroke"⟩
      ⟨none, some ["EXISTING"], none⟩).systemPrecepts = some ["EXISTING"] :=
  C4_low_confidence_no_directives ⟨0.9, "DEEP_FLOW", 0, 30, 7, 0.3, "keystroke"⟩
    ⟨none, some ["EXISTING"], none⟩ (by norm_num)

/-- Counterexample to claim C5: evaluating the hook twice on the same
record (stress 0.8, confidence 0.9) starting from an empty accumulation
pushes CONCISE_MODE twice - evaluation does not start from an empty
directive set and is not idempotent. -/
theorem C5_not_idempotent_counterexample :
    (preProcess ⟨0.8, "NORMAL", 0, 30, 1, 0.9, "keystroke"⟩
        (preProcess ⟨0.8, "NORMAL", 0, 30, 1, 0.9, "keystroke"⟩
          ⟨none, some [], none⟩)).systemPrecepts =
      some ["CONCISE_MODE", "CONCISE_MODE"] ∧
    (preProcess ⟨0.8, "NORMAL", 0, 30, 1, 0.9, "keystroke"⟩
        ⟨none, some [], none⟩).systemPrecepts = some ["CONCISE_MODE"] ∧
    (some ["CONCISE_MODE", "CONCISE_MODE"] : Option (List String)) ≠
      some ["CONCISE_MODE"] := by
  refine ⟨?_, ?_, by simp⟩ <;>
    (norm_num [preProcess, conciseNote, deepFlowNote]; simp)

/-- Claim C5 amended: each evaluation of the hook appends the record's
fired directives to the existing accumulation target, initializing it to
empty only when absent; re-evaluating the same record therefore appends the
fired directives a second time, and evaluation is idempotent precisely when
the record fires no directive. -/
theorem C5_evaluation_appends (s : BiometricState) (ctx : MsgContext) :
    (preProcess s ctx).systemPrecepts =
      some (ctx.systemPrecepts.getD [] ++ firedDirectives s) ∧
    (preProcess s (preProcess s ctx)).systemPrecepts =
      some (ctx.systemPrecepts.getD [] ++ firedDirectives s ++
        firedDirectives s) ∧
    (firedDirectives s = [] → preProcess s (preProcess s ctx) = preProcess s ctx) := by
  refine ⟨preProcess_precepts_eq s ctx, ?_, fun hnil => ?_⟩
  · rw [preProcess_precepts_eq s (preProcess s ctx), preProcess_precepts_eq s ctx]
    simp only [Option.getD_some]
  · have h1 : ¬(s.stress_index > 0.7 ∧ s.confidence > 0.5) := by
      intro hc
      simp [firedDirectives, hc] at hnil
    have h2 : ¬(s.flow_state = "DEEP_FLOW" ∧ s.confidence > 0.5) := by
      intro hc
      simp [firedDirectives, hc] at hnil
    unfold preProcess
    simp [h1, h2]

/-- Witness for C5 amended: evaluated at a record that fires CONCISE_MODE
(so the double evaluation visibly duplicates it) and, for the idempotence
conjunct, at a calm low-stress record that fires nothing. -/
theorem C5_evaluation_appends_witness :
    (preProcess ⟨0.8, "NORMAL", 0, 30, 1, 0.9, "keystroke"⟩
        (preProcess ⟨0.8, "NORMAL", 0, 30, 1, 0.9, "keystroke"⟩
          ⟨none, some ["A"], none⟩)).systemPrecepts =
      some (["A"] ++ firedDirectives ⟨0.8, "NORMAL", 0, 30, 1, 0.9, "keystroke"⟩ ++
        firedDirectives ⟨0.8, "NORMAL", 0, 30, 1, 0.9, "keystroke"⟩) ∧
    preProcess ⟨0.3, "NORMAL", 0, 30, 1, 0.9, "keystroke"⟩
        (preProcess ⟨0.3, "NORMAL", 0, 30, 1, 0.9, "keystroke"⟩
          ⟨none, some ["A"], none⟩) =
      preProcess ⟨0.3, "NORMAL", 0, 30, 1, 0.9, "keystroke"⟩
        ⟨none, some ["A"], none⟩ :=
  ⟨(C5_evaluation_appends ⟨0.8, "NORMAL", 0, 30, 1, 0.9, "keystroke"⟩
      ⟨none, some ["A"], none⟩).2.1,
   (C5_evaluation_appends ⟨0.3, "NORMAL", 0, 30, 1, 0.9, "keystroke"⟩
      ⟨none, some ["A"], none⟩).2.2
      (by norm_num [firedDirectives]; simp)⟩

/-- Counterexample to claim C6: the status-endpoint fallback returned by
readCurrentState when the state file is absent has source "none" and
timestamp 0, diverging from the canonical default record (source "default",
timestamp now) - and, carrying no confidence or ttl_seconds field at all,
it is not the one identical default record. -/
theorem C6_divergent_fallback_counterexample :
    readCurrentState none = Sum.inr apiFallbackState ∧
    apiFallbackState.source = "none" ∧
    (getDefaultState 0).source = "default" ∧
    apiFallbackState.source ≠ (getDefaultState 0).source ∧
    apiFallbackState.timestamp = 0 := by
  refine ⟨rfl, rfl, rfl, ?_, rfl⟩
  simp [apiFallbackState, getDefaultState]

/-- Claim C6 amended: every degradation path inside the state reader
(fetch with both channels failed, stale record, dead producer) substitutes
the one identical getDefaultState record, but the status endpoint in the
HTTP API uses its own divergent fallback: source "none" instead of
"default", timestamp 0 instead of now, with no ttl_seconds or confidence
field. -/
theorem C6_single_default_in_reader_only (osAlive : Int → Bool) (now : Int)
    (s : BiometricState) :
    readBiometricState osAlive now none none = getDefaultState now ∧
    (now - s.timestamp > MAX_STALENESS_MS →
      validateState osAlive now s = getDefaultState now) ∧
    (isDaemonAlive osAlive s.daemon_pid = false →
      validateState osAlive now s = getDefaultState now) ∧
    readCurrentState none = Sum.inr apiFallbackState ∧
    apiFallbackState.source ≠ (getDefaultState now).source := by
  refine ⟨rfl, fun h => ?_, fun h => ?_, rfl, ?_⟩
  · unfold validateState
    rw [if_pos h]
  · unfold validateState
    split_ifs <;> simp_all
  · simp [apiFallbackState, getDefaultState]

/-- Witness for C6 amended: the stale-record and dead-producer conjuncts
evaluated at concrete records. -/
theorem C6_single_default_in_reader_only_witness :
    validateState (fun _ => true) 100000
        ⟨0.4, "CALM", 0, 30, 7, 0.8, "keystroke"⟩ = getDefaultState 100000 ∧
    validateState (fun _ => false) 0
        ⟨0.4, "CALM", 0, 30, 7, 0.8, "keystroke"⟩ = getDefaultState 0 :=
  ⟨(C6_single_default_in_reader_only (fun _ => true) 100000
      ⟨0.4, "CALM", 0, 30, 7, 0.8, "keystroke"⟩).2.1 (by decide),
   (C6_single_default_in_reader_only (fun _ => false) 0
      ⟨0.4, "CALM", 0, 30, 7, 0.8, "keystroke"⟩).2.2.1 (by decide)⟩

/-- Counterexample to claim C7: the simulation preset "calm" writes a
record with stress_index 0.2 and flow_state CALM, but the Normalizer
threshold mapping sends 0.2 to DEEP_FLOW - the two fields are set
inconsistently by a producer-facing API. -/
theorem C7_calm_preset_counterexample :
    simulate (some "calm") none none 0 1 =
      some ⟨0.2, "CALM", 0, 300, 1, 1, "simulation"⟩ ∧
    stressToFlowState 0.2 = "DEEP_FLOW" ∧
    ("CALM" : String) ≠ stressToFlowState 0.2 := by
  refine ⟨?_, ?_, ?_⟩
  · simp [simulate, presetLookup]
  · norm_num [stressToFlowState]
  · have h : stressToFlowState 0.2 = "DEEP_FLOW" := by norm_num [stressToFlowState]
    rw [h]
    simp

/-- Claim C7 amended: every record emitted by the mobile ingestion endpoint
has flow_state equal to the threshold mapping of its stress_index, and the
simulation presets agree with the mapping as well - except the "calm"
preset, which pairs stress 0.2 with CALM while the mapping yields
DEEP_FLOW. -/
theorem C7_flow_state_consistency :
    (∀ data now st, handleBiometricsPost data now = some st →
      st.flow_state = stressToFlowState st.stress_index) ∧
    (∀ name si fs, presetLookup name = some (si, fs) → name ≠ "calm" →
      fs = stressToFlowState si) := by
  constructor
  · intro data now st h
    rw [handleBiometricsPost_some data now st h]
    simp only
    rw [round2_mobileStressIndex]
  · intro name si fs h hne
    by_cases h1 : name = "high-stress"
    · simp [presetLookup, h1] at h
      obtain ⟨hsi, hfs⟩ := h
      subst hsi
      subst hfs
      norm_num [stressToFlowState]
    · by_cases h2 : name = "calm"
      · exact absurd h2 hne
      · by_cases h3 : name = "deep-flow"
        · simp [presetLookup, h1, h2, h3] at h
          obtain ⟨hsi, hfs⟩ := h
          subst hsi
          subst hfs
          norm_num [stressToFlowState]
        · by_cases h4 : name = "normal"
          · simp [presetLookup, h1, h2, h3, h4] at h
            obtain ⟨hsi, hfs⟩ := h
            subst hsi
            subst hfs
            norm_num [stressToFlowState]
          · simp [presetLookup, h1, h2, h3, h4] at h

/-- Witness for C7 amended: the mobile conjunct at a heart-rate-only body
and the preset conjunct at the "normal" preset. -/
theorem C7_flow_state_consistency_witness :
    (⟨0.75, "STRESSED", 0, 300, -1, 0.6, "mobile_healthkit"⟩ :
        BiometricState).flow_state =
      stressToFlowState (0.75 : ℚ) ∧
    ("NORMAL" : String) = stressToFlowState (0.5 : ℚ) := by
  have hpost : handleBiometricsPost ⟨some 95, none, none, none⟩ 0 =
      some ⟨0.75, "STRESSED", 0, 300, -1, 0.6, "mobile_healthkit"⟩ := by
    norm_num [handleBiometricsPost, truthyNum, mobileStressIndex,
      heartRateToStress, stressToFlowState, round2]
  exact ⟨C7_flow_state_consistency.1 ⟨some 95, none, none, none⟩ 0
      ⟨0.75, "STRESSED", 0, 300, -1, 0.6, "mobile_healthkit"⟩ hpost,
    C7_flow_state_consistency.2 "normal" 0.5 "NORMAL" (by simp [presetLookup])
      (by simp)⟩

/-- Counterexample to claim C8: a heart rate of 95 bpm falls in the
90 <= hr < 100 band, which maps to stress 0.75, not 0.9; the ingestion
endpoint therefore publishes stress_index 0.75 for this sample. -/
theorem C8_hr95_counterexample :
    heartRateToStress 95 = 0.75 ∧
    handleBiometricsPost ⟨some 95, none, none, none⟩ 0 =
      some ⟨0.75, "STRESSED", 0, 300, -1, 0.6, "mobile_healthkit"⟩ ∧
    (0.75 : ℚ) ≠ 0.9 := by
  refine ⟨by norm_num [heartRateToStress], ?_, by norm_num⟩
  norm_num [handleBiometricsPost, truthyNum, mobileStressIndex,
    heartRateToStress, stressToFlowState, round2]

/-- Claim C8 amended: for a sample with heart_rate 95 bpm and no HRV,
normalization produces stress_index 0.75, confidence 0.6 and flow_state
STRESSED. -/
theorem C8_hr95_scenario (now : Int) :
    handleBiometricsPost ⟨some 95, none, none, none⟩ now =
      some ⟨0.75, "STRESSED", now, 300, -1, 0.6, "mobile_healthkit"⟩ := by
  norm_num [handleBiometricsPost, truthyNum, mobileStressIndex,
    heartRateToStress, stressToFlowState, round2]

/-- Counterexample to claim C9: the body with hrv 0 and heart_rate 80
passes validation (heart_rate is truthy), derives its stress from HRV
(hrvToStress 0 = 0.95, not heartRateToStress 80 = 0.6), yet carries
confidence 0.6 because `data.hrv ? 0.9 : 0.6` treats the number 0 as
falsy - an HRV-derived record without confidence 0.9. -/
theorem C9_hrv_zero_counterexample :
    handleBiometricsPost ⟨some 80, some 0, none, none⟩ 0 =
      some ⟨0.95, "STRESSED", 0, 300, -1, 0.6, "mobile_healthkit"⟩ ∧
    hrvToStress 0 = 0.95 ∧
    heartRateToStress 80 = 0.6 ∧
    (0.6 : ℚ) ≠ 0.9 := by
  refine ⟨?_, by norm_num [hrvToStress], by norm_num [heartRateToStress],
    by norm_num⟩
  norm_num [handleBiometricsPost, truthyNum, mobileStressIndex, hrvToStress,
    stressToFlowState, round2]

/-- Claim C9 amended: when hrv is present it takes precedence over
heart_rate for the stress computation, whatever its value; confidence is
0.9 exactly when hrv is present and nonzero (JavaScript-truthy), and 0.6
otherwise - so a record with hrv 0 is HRV-derived yet carries confidence
0.6. -/
theorem C9_hrv_precedence_confidence (data : MobileBiometricData) (now : Int)
    (st : BiometricState) (h : handleBiometricsPost data now = some st) :
    (∀ v, data.hrv = some v → st.stress_index = round2 (hrvToStress v)) ∧
    (data.hrv = none → ∀ w, data.heart_rate = some w →
      st.stress_index = round2 (heartRateToStress w)) ∧
    (truthyNum data.hrv = true → st.confidence = 0.9) ∧
    (truthyNum data.hrv = false → st.confidence = 0.6) := by
  rw [handleBiometricsPost_some data now st h]
  refine ⟨fun v hv => ?_, fun hn w hw => ?_, fun ht => ?_, fun hf => ?_⟩
  · simp only [mobileStressIndex, hv]
  · simp only [mobileStressIndex, hn, hw]
  · simp only [ht, if_true]
  · simp only [hf, Bool.false_eq_true, if_false]

/-- Witness for C9 amended: evaluated at the body with hrv 90 (stress from
HRV, confidence 0.9) using the concrete record the endpoint produces. -/
theorem C9_hrv_precedence_confidence_witness :
    ((0.2 : ℚ) = round2 (hrvToStress 90)) ∧ ((0.9 : ℚ) = 0.9) := by
  have hpost : handleBiometricsPost ⟨none, some 90, none, none⟩ 0 =
      some ⟨0.2, "DEEP_FLOW", 0, 300, -1, 0.9, "mobile_healthkit"⟩ := by
    norm_num [handleBiometricsPost, truthyNum, mobileStressIndex, hrvToStress,
      stressToFlowState, round2]
  have h := C9_hrv_precedence_confidence ⟨none, some 90, none, none⟩ 0
    ⟨0.2, "DEEP_FLOW", 0, 300, -1, 0.9, "mobile_healthkit"⟩ hpost
  exact ⟨h.1 90 rfl, h.2.2.1 (by norm_num [truthyNum])⟩

/-- Claim C10: every record published through the mobile biometrics
endpoint carries daemon_pid -1, so a subsequent read through the Validator
always replaces it with the default record (producer liveness fails for
pid <= 0), and the default record (confidence 0) fires no precept. -/
theorem C10_mobile_never_validates (data : MobileBiometricData)
    (now now2 : Int) (st : BiometricState) (osAlive : Int → Bool)
    (ctx : MsgContext) (h : handleBiometricsPost data now = some st) :
    st.daemon_pid = -1 ∧
    validateState osAlive now2 st = getDefaultState now2 ∧
    (preProcess (getDefaultState now2) ctx).systemPrecepts =
      some (ctx.systemPrecepts.getD []) := by
  have hpid : st.daemon_pid = -1 := by
    rw [handleBiometricsPost_some data now st h]
  have hdead : isDaemonAlive osAlive st.daemon_pid = false := by
    rw [hpid]
    unfold isDaemonAlive
    rw [if_pos (by norm_num)]
  refine ⟨hpid, ?_, ?_⟩
  · unfold validateState
    split_ifs <;> simp_all
  · rw [preProcess_precepts_eq,
      low_conf_fired_nil (getDefaultState now2) (by norm_num [getDefaultState]),
      List.append_nil]

/-- Witness for C10: the record published for a heart rate of 95 is
replaced by the default on a validated read, and the default record adds no
precept. -/
theorem C10_mobile_never_validates_witness :
    (⟨0.75, "STRESSED", 0, 300, -1, 0.6, "mobile_healthkit"⟩ :
        BiometricState).daemon_pid = -1 ∧
    validateState (fun _ => true) 0
        ⟨0.75, "STRESSED", 0, 300, -1, 0.6, "mobile_healthkit"⟩ =
      getDefaultState 0 ∧
    (preProcess (getDefaultState 0)
        ⟨none, some ["EXISTING"], none⟩).systemPrecepts = some ["EXISTING"] :=
  C10_mobile_never_validates ⟨some 95, none, none, none⟩ 0 0
    ⟨0.75, "STRESSED", 0, 300, -1, 0.6, "mobile_healthkit"⟩ (fun _ => true)
    ⟨none, some ["EXISTING"], none⟩
    (by norm_num [handleBiometricsPost, truthyNum, mobileStressIndex,
      heartRateToStress, stressToFlowState, round2])
